import Mathlib

/-!
libqcomui: buffer geometry reconciliation and buffer reallocation

A shallow embedding of `libqcomui/qcom_ui.cpp` and the properties of its
functions `needNewBuffer`, `checkBuffer` (with the file-local helper
`reallocate_memory`), `updateBufferGeometry`, `getCompositionType` (with the
cache kept by `qcomuiClearRegion`), `handleEventHDMI`,
`updateLayerQcomFlags` and `isGPUSupportedFormat`.

Conventions of the embedding

* C `int` values are integers; the functions embedded here only compare them
  and test them against zero, so no arithmetic can overflow.
* A pointer to a handle is an `Option`: `none` is the null pointer and
  `some h` points to a handle whose fields are `h`.
* Code that changes memory or talks to the allocator is written in explicit
  state passing style; every call that leaves the function is written to a
  log, together with what the callee answered.
-/

namespace QcomUI

/-! ## Buffer geometry -/

/-- Modelled from the spec: the struct `qBufGeometry` is declared in
`qcom_ui.h`, which is not among the sources. The spec describes it as
`{width, height, pixelFormat}`; the field names are the ones the source uses
(`width`, `height`, `format`). -/
structure qBufGeometry where
  width : Int
  height : Int
  format : Int
  deriving DecidableEq, Repr

/-- A geometry is fully set when none of its three fields is zero; this is the
C condition `g.width && g.height && g.format`. -/
def qBufGeometry.fullySet (g : qBufGeometry) : Bool :=
  g.width != 0 && g.height != 0 && g.format != 0

/-- A geometry is unset when at least one of its fields is zero. -/
def qBufGeometry.unset (g : qBufGeometry) : Prop :=
  g.width = 0 ∨ g.height = 0 ∨ g.format = 0

instance (g : qBufGeometry) : Decidable g.unset := by
  unfold qBufGeometry.unset
  infer_instance

/-- Embedding of `needNewBuffer` (qcom_ui.cpp, lines 199 to 217). -/
def needNewBuffer (currentGeometry requiredGeometry updatedGeometry : qBufGeometry) : Bool :=
  if updatedGeometry.width != 0 && updatedGeometry.height != 0 &&
      updatedGeometry.format != 0 then
    false
  else if currentGeometry.width != requiredGeometry.width ||
      currentGeometry.height != requiredGeometry.height ||
      currentGeometry.format != requiredGeometry.format then
    true
  else
    false

/-! ## Handles and the allocator -/

/-- The errno value `EINVAL` of `errno.h`. -/
def EINVAL : Int := 22

/-- Modelled from the spec: the struct `private_handle_t` is declared in
`gralloc_priv.h`, which is not among the sources. The spec lists the fields of
a buffer handle as `{fileDescriptor, baseAddress, sizeBytes, offsetBytes,
alignmentBytes, pixelFormat, width, height, flags}`; the names are the ones the
source uses (`fd`, `base`, `size`, `offset`, `format`, `width`, `height`,
`flags`), and `alignmentBytes` is the one field the source never names. -/
structure private_handle_t where
  fd : Int
  base : Int
  size : Int
  offset : Int
  alignmentBytes : Int
  format : Int
  width : Int
  height : Int
  flags : Int
  deriving DecidableEq, Repr

/-- Modelled from the spec: the struct `alloc_data` is declared in
`memalloc.h`, which is not among the sources. The fields are the six that
`reallocate_memory` assigns; `base` is an address (`void*`), the allocator
receives the struct by reference and may overwrite every field. -/
structure alloc_data where
  base : Nat
  fd : Int
  offset : Int
  size : Int
  align : Int
  uncached : Bool
  deriving DecidableEq, Repr

/-- The cast `(int)p` of an address to `int` on the 32 bit target: the same
bit pattern read as a signed number. -/
def ptrToInt (p : Nat) : Int :=
  ((p : Int) + 2147483648) % 4294967296 - 2147483648

/-- The cast `(void*)i` of an `int` to an address on the 32 bit target. -/
def intToPtr (i : Int) : Nat :=
  (i % 4294967296).toNat

/-- One call made while `checkBuffer` runs, with its arguments and with what
the callee answered. -/
inductive Call where
  /-- `private_handle_t::validate(handle)` returned `ret`. -/
  | validate (handle : Option private_handle_t) (ret : Int)
  /-- `reallocate_memory(hnd, mReqSize, usage)` was entered. -/
  | reallocate_memory (mReqSize usage : Int)
  /-- `IAllocController::getInstance(true)`; `nonNull` tells whether a
  controller came back. -/
  | getInstance (nonNull : Bool)
  /-- `sAlloc->getAllocator(flags)`; `nonNull` tells whether an allocator came
  back. -/
  | getAllocator (flags : Int) (nonNull : Bool)
  /-- `memalloc->free_buffer(base, size, offset, fd)` returned `ret`. -/
  | free_buffer (base : Nat) (size offset fd : Int) (ret : Int)
  /-- `sAlloc->allocate(data, allocFlags, compositionType)` returned `ret` and
  left `out` in `data`. -/
  | allocate (data : alloc_data) (allocFlags compositionType : Int) (ret : Int)
      (out : alloc_data)
  deriving DecidableEq, Repr

/-- What `qcom_ui.cpp` uses and does not define: handle validation, the page
size, two pixel format constants, and the allocator, which is a state machine
over its own state `σ` (every operation answers and moves to a next state). -/
structure Env (σ : Type) where
  /-- `private_handle_t::validate`: zero for a handle that passes. -/
  validate : Option private_handle_t → Int
  /-- `getpagesize()`. -/
  pagesize : Int
  HAL_PIXEL_FORMAT_YCbCr_420_SP_TILED : Int
  HAL_PIXEL_FORMAT_INTERLACE : Int
  /-- `gralloc::IAllocController::getInstance(true)`: whether a controller is
  returned. -/
  getInstance : σ → Bool × σ
  /-- `IAllocController::getAllocator(flags)`: whether an allocator is
  returned. -/
  getAllocator : σ → Int → Bool × σ
  /-- `IMemAlloc::free_buffer(base, size, offset, fd)`: the return code. -/
  free_buffer : σ → Nat → Int → Int → Int → Int × σ
  /-- `IAllocController::allocate(data, usage, compType)`: the return code and
  the contents of `data` afterwards. -/
  allocate : σ → alloc_data → Int → Int → (Int × alloc_data) × σ

/-- The state outside the handle: whether the static `sAlloc` holds a
controller, and the state of the allocator. -/
structure World (σ : Type) where
  sAlloc : Bool
  allocator : σ
  deriving DecidableEq, Repr

/-- The result of running a function on a handle: the value returned (`none`
when the run dereferences a null pointer and so returns nothing), the memory
the handle pointer points to afterwards, the state afterwards, and the calls
made, oldest first. -/
structure Result (σ : Type) where
  ret : Option Int
  handle : Option private_handle_t
  world : World σ
  calls : List Call
  deriving DecidableEq, Repr

/-- The switch on `hnd->format` in `reallocate_memory` (lines 84 to 90): the
alignment of the request after it. -/
def alignFor (env : Env σ) (format : Int) : Int :=
  if format = env.HAL_PIXEL_FORMAT_YCbCr_420_SP_TILED ∨
      format = Int.xor env.HAL_PIXEL_FORMAT_YCbCr_420_SP_TILED
        env.HAL_PIXEL_FORMAT_INTERLACE then
    8192
  else
    env.pagesize

/-- Embedding of `reallocate_memory` (qcom_ui.cpp, lines 51 to 103), built
without `NON_QCOM_TARGET`. -/
def reallocate_memory (env : Env σ) (buffer_handle : Option private_handle_t)
    (mReqSize usage : Int) (w : World σ) : Result σ :=
  -- if (sAlloc == 0) sAlloc = getInstance(true);
  let inst : Bool × σ × List Call :=
    if w.sAlloc then (true, w.allocator, [])
    else
      let g := env.getInstance w.allocator
      (g.1, g.2, [Call.getInstance g.1])
  if inst.1 = false then
    -- sAlloc is still NULL
    { ret := some (-EINVAL), handle := buffer_handle,
      world := ⟨false, inst.2.1⟩, calls := inst.2.2 }
  else
    match buffer_handle with
    | none =>
      -- hnd->flags on a null pointer
      { ret := none, handle := none, world := ⟨true, inst.2.1⟩, calls := inst.2.2 }
    | some hnd =>
      let m := env.getAllocator inst.2.1 hnd.flags
      let cGet := Call.getAllocator hnd.flags m.1
      if m.1 = false then
        -- memalloc->free_buffer on a null allocator
        { ret := none, handle := some hnd, world := ⟨true, m.2⟩,
          calls := inst.2.2 ++ [cGet] }
      else
        let f := env.free_buffer m.2 (intToPtr hnd.base) hnd.size hnd.offset hnd.fd
        let cFree := Call.free_buffer (intToPtr hnd.base) hnd.size hnd.offset hnd.fd f.1
        if f.1 ≠ 0 then
          { ret := some (-1), handle := some hnd, world := ⟨true, f.2⟩,
            calls := inst.2.2 ++ [cGet, cFree] }
        else
          let data : alloc_data :=
            { base := 0, fd := -1, offset := 0, size := mReqSize,
              align := alignFor env hnd.format, uncached := true }
          let allocFlags := usage
          let r := env.allocate f.2 data allocFlags 0
          let cAlloc := Call.allocate data allocFlags 0 r.1.1 r.1.2
          if r.1.1 = 0 then
            { ret := some r.1.1,
              handle := some { hnd with
                fd := r.1.2.fd, base := ptrToInt r.1.2.base,
                offset := r.1.2.offset, size := r.1.2.size },
              world := ⟨true, r.2⟩, calls := inst.2.2 ++ [cGet, cFree, cAlloc] }
          else
            { ret := some (-EINVAL), handle := some hnd, world := ⟨true, r.2⟩,
              calls := inst.2.2 ++ [cGet, cFree, cAlloc] }

/-- Embedding of `checkBuffer` (qcom_ui.cpp, lines 169 to 188). -/
def checkBuffer (env : Env σ) (buffer_handle : Option private_handle_t)
    (size usage : Int) (w : World σ) : Result σ :=
  if 0 ≥ size then
    { ret := some 0, handle := buffer_handle, world := w, calls := [] }
  else
    let v := env.validate buffer_handle
    if v ≠ 0 then
      { ret := some (-EINVAL), handle := buffer_handle, world := w,
        calls := [Call.validate buffer_handle v] }
    else
      match buffer_handle with
      | none =>
        -- hnd->size on a null pointer
        { ret := none, handle := none, world := w,
          calls := [Call.validate none v] }
      | some hnd =>
        if hnd.size ≠ size then
          let r := reallocate_memory env (some hnd) size usage w
          { r with
            calls := Call.validate (some hnd) v :: Call.reallocate_memory size usage :: r.calls }
        else
          { ret := some 0, handle := some hnd, world := w,
            calls := [Call.validate (some hnd) v] }

/-- Whether a logged call is a call of the allocator's `allocate`. -/
def Call.isAllocate : Call → Bool
  | Call.allocate _ _ _ _ _ => true
  | _ => false

/-! ## A small allocator to run the code on -/

/-- An allocator whose state counts the buffers it has handed out and not yet
taken back. `free_buffer` answers `freeRet`, `allocate` answers `allocRet`;
a successful `allocate` maps the request at address `0x40000000` with file
descriptor 7 and rounds the size up to a multiple of 4096. Validation accepts
exactly the non-null handles with a non-negative file descriptor. -/
def demoEnv (getInstanceOk : Bool) (freeRet allocRet : Int) : Env Nat where
  validate := fun h =>
    match h with
    | none => -EINVAL
    | some hnd => if hnd.fd < 0 then -EINVAL else 0
  pagesize := 4096
  HAL_PIXEL_FORMAT_YCbCr_420_SP_TILED := 0x7FA30C03
  HAL_PIXEL_FORMAT_INTERLACE := 0x180
  getInstance := fun n => (getInstanceOk, n)
  getAllocator := fun n _ => (true, n)
  free_buffer := fun n _ _ _ _ => (freeRet, if freeRet = 0 then n - 1 else n)
  allocate := fun n data _ _ =>
    if allocRet = 0 then
      ((0, { data with base := 0x40000000, fd := 7, size := (data.size + 4095) / 4096 * 4096 }),
        n + 1)
    else ((allocRet, data), n)

/-- A handle of 4096 bytes for a 32 by 32 buffer. -/
def demoHandle : private_handle_t :=
  { fd := 5, base := 0x30000000, size := 4096, offset := 0, alignmentBytes := 4096,
    format := 1, width := 32, height := 32, flags := 0 }

/-! ## Updating the geometry of a buffer -/

/-- Modelled from the spec: the class `GraphicBuffer` is not declared in the
sources. The spec describes it as a wrapper around a buffer handle that
carries its own `{width, height, pixelFormat}` mirror; the names are the ones
the source uses (`width`, `height`, `format`, `handle`). The handle pointer may
be null. -/
structure GraphicBuffer where
  width : Int
  height : Int
  format : Int
  handle : Option private_handle_t
  deriving DecidableEq, Repr

/-- The result of `updateBufferGeometry`: the value returned, the buffer the
pointer points to afterwards (with its handle), and the calls made. -/
structure GeometryResult where
  ret : Int
  buffer : Option GraphicBuffer
  calls : List Call
  deriving DecidableEq, Repr

/-- Embedding of `updateBufferGeometry` (qcom_ui.cpp, lines 227 to 265);
`validate` is `private_handle_t::validate`, which the sources do not define. -/
def updateBufferGeometry (validate : Option private_handle_t → Int)
    (buffer : Option GraphicBuffer) (updatedGeometry : qBufGeometry) : GeometryResult :=
  match buffer with
  | none =>
    -- graphic buffer is NULL
    { ret := -EINVAL, buffer := none, calls := [] }
  | some b =>
    if updatedGeometry.width = 0 ∨ updatedGeometry.height = 0 ∨
        updatedGeometry.format = 0 then
      -- No update required.
      { ret := 0, buffer := some b, calls := [] }
    else if b.width = updatedGeometry.width ∧ b.height = updatedGeometry.height ∧
        b.format = updatedGeometry.format then
      -- The buffer has already been updated.
      { ret := 0, buffer := some b, calls := [] }
    else
      let v := validate b.handle
      if v ≠ 0 then
        { ret := -EINVAL, buffer := some b, calls := [Call.validate b.handle v] }
      else
        let b1 : GraphicBuffer :=
          { b with width := updatedGeometry.width, height := updatedGeometry.height,
                   format := updatedGeometry.format }
        match b1.handle with
        | some hnd =>
          { ret := 0,
            buffer := some { b1 with
              handle := some { hnd with
                width := updatedGeometry.width, height := updatedGeometry.height,
                format := updatedGeometry.format } },
            calls := [Call.validate b.handle v] }
        | none =>
          -- hnd is NULL
          { ret := -EINVAL, buffer := some b1, calls := [Call.validate b.handle v] }

/-- A buffer of 32 by 32 in format 1 on `demoHandle`. -/
def demoBuffer : GraphicBuffer :=
  { width := 32, height := 32, format := 1, handle := some demoHandle }

/-! ## The composition type -/

/-- What `getCompositionType` uses and does not define: the libc function
`atoi`, and the five composition type constants of `qcom_ui.h`, which is not
among the sources. -/
structure Config where
  atoi : List Char → Int
  COMPOSITION_TYPE_GPU : Int
  COMPOSITION_TYPE_MDP : Int
  COMPOSITION_TYPE_C2D : Int
  COMPOSITION_TYPE_CPU : Int
  COMPOSITION_TYPE_DYN : Int

/-- The two system properties `getCompositionType` reads, `debug.sf.hw` and
`debug.composition.type`; `none` is a property that is not set. A value is the
list of its characters. -/
structure Properties where
  debug_sf_hw : Option (List Char)
  debug_composition_type : Option (List Char)
  deriving DecidableEq, Repr

/-- The libcutils function `property_get(key, value, default_value)`, applied
to what the key is set to: the length it returns and the string it leaves in
the buffer `value`. A property that is not set or empty gives the default, or
length 0 and the empty string when the default is `NULL`. -/
def property_get (setting default_value : Option (List Char)) : Int × List Char :=
  match setting with
  | some (c :: cs) => (((c :: cs).length : Nat), c :: cs)
  | _ =>
    match default_value with
    | some d => ((d.length : Nat), d)
    | none => (0, [])

/-- The libc function `strncmp(s1, s2, n)` on strings given as the lists of
their characters before the terminating zero: zero when the first `n`
characters agree (or both strings end before), negative or positive after the
first difference. -/
def strncmp : List Char → List Char → Nat → Int
  | _, _, 0 => 0
  | [], [], _ + 1 => 0
  | [], _ :: _, _ + 1 => -1
  | _ :: _, [], _ + 1 => 1
  | a :: s1, b :: s2, n + 1 =>
    if a = b then strncmp s1 s2 n else if a.toNat < b.toNat then -1 else 1

/-- Embedding of `getCompositionType` (qcom_ui.cpp, lines 334 to 358). The
test `property == NULL` of line 342 is on an array and is always false. -/
def getCompositionType (cfg : Config) (props : Properties) : Int :=
  let p1 := property_get props.debug_sf_hw none
  if p1.1 > 0 then
    if cfg.atoi p1.2 = 0 then
      cfg.COMPOSITION_TYPE_CPU
    else
      -- debug.sf.hw = 1
      let p2 := property_get props.debug_composition_type none
      if strncmp p2.2 ['m', 'd', 'p'] 3 = 0 then
        cfg.COMPOSITION_TYPE_MDP
      else if strncmp p2.2 ['c', '2', 'd'] 3 = 0 then
        cfg.COMPOSITION_TYPE_C2D
      else if strncmp p2.2 ['d', 'y', 'n'] 3 = 0 then
        cfg.COMPOSITION_TYPE_DYN
      else
        cfg.COMPOSITION_TYPE_GPU
  else
    -- debug.sf.hw is not set. Use cpu composition
    cfg.COMPOSITION_TYPE_CPU

/-- Embedding of the part of `qcomuiClearRegion` that deals with the
composition type (qcom_ui.cpp, lines 369 to 383): the value returned and the
static `sCompositionType` afterwards. The rest of the function (lines 385 to
420) clears the region in the frame buffer and does not touch
`sCompositionType`; `clear` is the value it returns. -/
def qcomuiClearRegion (cfg : Config) (props : Properties) (clear : Int)
    (sCompositionType : Int) : Int × Int :=
  let s := if -1 = sCompositionType then getCompositionType cfg props else sCompositionType
  if cfg.COMPOSITION_TYPE_MDP ≠ s ∧ cfg.COMPOSITION_TYPE_C2D ≠ s ∧
      cfg.COMPOSITION_TYPE_CPU ≠ s then
    (-1, s)
  else
    (clear, s)

/-- The static `sCompositionType` after a sequence of calls of
`qcomuiClearRegion`, each made under its own settings. -/
def sCompositionTypeAfter (cfg : Config) : Int → List (Properties × Int) → Int
  | s, [] => s
  | s, (props, clear) :: rest =>
    sCompositionTypeAfter cfg (qcomuiClearRegion cfg props clear s).2 rest

/-- A decimal `atoi` for running the code: the number written by the leading
digits. -/
def demoAtoi (s : List Char) : Int :=
  (s.takeWhile (fun c => decide (48 ≤ c.toNat ∧ c.toNat ≤ 57))).foldl
    (fun n c => 10 * n + ((c.toNat : Int) - 48)) 0

/-- A configuration with `demoAtoi` and the constants 0, 1, 2, 4, 8. -/
def demoConfig : Config :=
  { atoi := demoAtoi, COMPOSITION_TYPE_GPU := 0, COMPOSITION_TYPE_MDP := 1,
    COMPOSITION_TYPE_C2D := 2, COMPOSITION_TYPE_CPU := 4, COMPOSITION_TYPE_DYN := 8 }

/-! ## External displays -/

/-- Modelled from the spec: the enum `external_display` is declared in
`qcom_ui.h`, which is not among the sources. The spec names the states `OFF`,
`HDMI` and `WIFI` and speaks of any other event; `other v` is a value of the
enum type that is none of the three enumerators. -/
inductive external_display where
  | EXT_DISPLAY_OFF
  | EXT_DISPLAY_HDMI
  | EXT_DISPLAY_WIFI
  | other (v : Int)
  deriving DecidableEq, Repr

open external_display in
/-- Embedding of `handleEventHDMI` (qcom_ui.cpp, lines 434 to 455). -/
def handleEventHDMI (newState currState : external_display) : external_display :=
  let retState := currState
  match newState with
  | EXT_DISPLAY_HDMI => EXT_DISPLAY_HDMI
  | EXT_DISPLAY_WIFI =>
    if currState ≠ EXT_DISPLAY_HDMI then EXT_DISPLAY_WIFI else retState
  | EXT_DISPLAY_OFF => EXT_DISPLAY_OFF
  | other _ => retState

/-- The state after a sequence of events, each handled by `handleEventHDMI`,
oldest event first. -/
def handleEvents (currState : external_display) (events : List external_display) :
    external_display :=
  events.foldl (fun s e => handleEventHDMI e s) currState

/-! ## Layer flags -/

/-- The two constants of `qcom_ui.h` that `updateLayerQcomFlags` uses: the
attribute `LAYER_UPDATE_STATUS` and the flag bit `LAYER_UPDATING`. -/
structure LayerConsts where
  LAYER_UPDATE_STATUS : Int
  LAYER_UPDATING : Int

/-- Embedding of `updateLayerQcomFlags` (qcom_ui.cpp, lines 275 to 289): the
value returned and `currentFlags` afterwards. The parameter `attrib` is the
`attribute` of the source, a word Lean reserves. -/
def updateLayerQcomFlags (c : LayerConsts) (attrib : Int) (enable : Bool)
    (currentFlags : Int) : Int × Int :=
  let ret : Int := 0
  if attrib = c.LAYER_UPDATE_STATUS then
    if enable then
      (ret, Int.lor currentFlags c.LAYER_UPDATING)
    else
      (ret, Int.land currentFlags (Int.not c.LAYER_UPDATING))
  else
    -- invalid attribute
    (ret, currentFlags)

/-! ## Formats the GPU supports -/

/-- What `isGPUSupportedFormat` uses and does not define: whether the build
defines `BYPASS_EGLIMAGE`, two pixel format constants and the two bit masks
`INTERLACE_MASK` and `S3D_FORMAT_MASK`; their headers are not among the
sources. -/
structure FormatConsts where
  BYPASS_EGLIMAGE : Bool
  HAL_PIXEL_FORMAT_YCrCb_420_SP : Int
  HAL_PIXEL_FORMAT_YV12 : Int
  INTERLACE_MASK : Int
  S3D_FORMAT_MASK : Int

/-- Embedding of `isGPUSupportedFormat` (qcom_ui.cpp, lines 135 to 156); the
C conditions `format & MASK` are tests of the bitwise and against zero. -/
def isGPUSupportedFormat (c : FormatConsts) (format : Int) : Bool :=
  if c.BYPASS_EGLIMAGE = true ∧ format = c.HAL_PIXEL_FORMAT_YCrCb_420_SP then
    false
  else if format = c.HAL_PIXEL_FORMAT_YV12 then
    -- We check the YV12 formats, since some Qcom specific formats
    -- could have the bits set.
    true
  else if Int.land format c.INTERLACE_MASK ≠ 0 then
    -- Interlaced content
    false
  else if Int.land format c.S3D_FORMAT_MASK ≠ 0 then
    -- S3D Formats are not supported by the GPU
    false
  else
    true

/-- Constants to run the code on, built without `BYPASS_EGLIMAGE`: YV12 is
`0x32315659`, the interlace mask `0x80`, the S3D mask `0xFF000`. -/
def demoFormats : FormatConsts :=
  { BYPASS_EGLIMAGE := false, HAL_PIXEL_FORMAT_YCrCb_420_SP := 0x11,
    HAL_PIXEL_FORMAT_YV12 := 0x32315659, INTERLACE_MASK := 0x80,
    S3D_FORMAT_MASK := 0xFF000 }

/-! ## Properties of `needNewBuffer` -/

/-- C1: when all three fields of the updated geometry are non-zero,
`needNewBuffer` answers `false`, whatever the current and the required
geometry are, also when they differ. -/
theorem needNewBuffer_updated_fully_set (current required updated : qBufGeometry)
    (hw : updated.width ≠ 0) (hh : updated.height ≠ 0) (hf : updated.format ≠ 0) :
    needNewBuffer current required updated = false := by
  simp [needNewBuffer, hw, hh, hf]

/-- Instance of C1 at geometries whose current and required values differ in
every field. -/
theorem needNewBuffer_updated_fully_set_witness :
    needNewBuffer ⟨100, 200, 1⟩ ⟨640, 480, 2⟩ ⟨640, 480, 2⟩ = false :=
  needNewBuffer_updated_fully_set ⟨100, 200, 1⟩ ⟨640, 480, 2⟩ ⟨640, 480, 2⟩
    (by decide) (by decide) (by decide)

/-- C2: when the updated geometry has at least one zero field, `needNewBuffer`
answers `true` exactly when the current geometry differs from the required one
in width, height or format. So it answers `false` when the two are equal, and
`true` for current `{100,200,F1}`, required `{100,200,F2}`, updated `{0,0,0}`
with `F1` different from `F2`. -/
theorem needNewBuffer_updated_unset (current required updated : qBufGeometry)
    (hu : updated.width = 0 ∨ updated.height = 0 ∨ updated.format = 0) :
    (needNewBuffer current required updated = true ↔
      (current.width ≠ required.width ∨ current.height ≠ required.height ∨
        current.format ≠ required.format)) ∧
    (current = required → needNewBuffer current required updated = false) ∧
    (∀ F1 F2 : Int, F1 ≠ F2 →
      needNewBuffer ⟨100, 200, F1⟩ ⟨100, 200, F2⟩ ⟨0, 0, 0⟩ = true) := by
  have hcond : (updated.width != 0 && updated.height != 0 && updated.format != 0) = false := by
    rcases hu with h | h | h <;> simp [h]
  refine ⟨?_, ?_, ?_⟩
  · simp only [needNewBuffer, hcond]
    simp [or_assoc]
  · intro heq
    subst heq
    simp [needNewBuffer]
  · intro F1 F2 hne
    simp [needNewBuffer, hne]

/-- Instance of C2: only the format differs and the updated geometry is
`{0,0,0}`. -/
theorem needNewBuffer_updated_unset_witness :
    needNewBuffer ⟨100, 200, 1⟩ ⟨100, 200, 2⟩ ⟨0, 0, 0⟩ = true :=
  ((needNewBuffer_updated_unset ⟨100, 200, 1⟩ ⟨100, 200, 2⟩ ⟨0, 0, 0⟩
    (Or.inl rfl)).1).2 (Or.inr (Or.inr (by decide)))

/-- C3 as stated fails: with an unset current geometry `{0,0,0}`, required
`{100,200,1}` and updated `{0,0,0}`, `needNewBuffer` answers `true`. -/
theorem needNewBuffer_unset_current_counterexample :
    ¬ (∀ current required updated : qBufGeometry,
        current.unset ∨ required.unset →
        needNewBuffer current required updated = false) := by
  intro h
  have h1 := h ⟨0, 0, 0⟩ ⟨100, 200, 1⟩ ⟨0, 0, 0⟩ (Or.inl (Or.inl rfl))
  revert h1
  decide

/-- C3 (amended): an unset current or required geometry is compared like any
other. When the current or the required geometry is unset, `needNewBuffer`
answers `false` if the updated geometry is fully set or the current geometry
equals the required one, and `true` otherwise. -/
theorem needNewBuffer_unset_current_or_required (current required updated : qBufGeometry)
    (_h : current.unset ∨ required.unset) :
    ((updated.fullySet = true ∨ current = required) →
      needNewBuffer current required updated = false) ∧
    (¬ (updated.fullySet = true ∨ current = required) →
      needNewBuffer current required updated = true) := by
  obtain ⟨cw, ch, cf⟩ := current
  obtain ⟨rw, rh, rf⟩ := required
  constructor
  · rintro (hu | heq)
    · have hu2 := hu
      simp only [qBufGeometry.fullySet] at hu2
      simp [needNewBuffer, hu2]
    · simp only [qBufGeometry.mk.injEq] at heq
      obtain ⟨h1, h2, h3⟩ := heq
      subst h1 h2 h3
      simp [needNewBuffer]
  · intro hn
    have hu : ¬ updated.fullySet = true := fun hc => hn (Or.inl hc)
    have hne : ¬ (cw = rw ∧ ch = rh ∧ cf = rf) := fun hc =>
      hn (Or.inr (by simp [hc.1, hc.2.1, hc.2.2]))
    simp only [qBufGeometry.fullySet] at hu
    simp only [needNewBuffer, hu]
    simp only [Bool.false_eq_true, if_false]
    have : (cw != rw || ch != rh || cf != rf) = true := by
      by_contra hc
      apply hne
      simp at hc
      exact ⟨hc.1.1, hc.1.2, hc.2⟩
    simp [this]

/-- Instance of the amended C3: the current geometry is unset, differs from
the required one, and the updated geometry is unset, so a new buffer is
needed. -/
theorem needNewBuffer_unset_current_or_required_witness :
    (qBufGeometry.unset ⟨0, 0, 0⟩ ∨ qBufGeometry.unset ⟨100, 200, 1⟩) ∧
    needNewBuffer ⟨0, 0, 0⟩ ⟨100, 200, 1⟩ ⟨0, 0, 0⟩ = true :=
  ⟨Or.inl (Or.inl rfl),
    (needNewBuffer_unset_current_or_required ⟨0, 0, 0⟩ ⟨100, 200, 1⟩ ⟨0, 0, 0⟩
      (Or.inl (Or.inl rfl))).2 (by decide)⟩

/-! ## The runs of `reallocate_memory` -/

/-- The five ways a run of `reallocate_memory` on a non-null handle can go:
no controller, no allocator (a null pointer is dereferenced), `free_buffer`
fails, `allocate` fails, or both succeed. `pre` is empty, or holds the
`getInstance` call made when `sAlloc` was still null. -/
theorem reallocate_memory_outcomes (env : Env σ) (hnd : private_handle_t)
    (mReqSize usage : Int) (w : World σ) :
    ∃ (pre : List Call) (wd : World σ),
      (pre = [] ∨ ∃ b, pre = [Call.getInstance b]) ∧
      (reallocate_memory env (some hnd) mReqSize usage w
          = ⟨some (-EINVAL), some hnd, wd, [Call.getInstance false]⟩
        ∨ reallocate_memory env (some hnd) mReqSize usage w
          = ⟨none, some hnd, wd, pre ++ [Call.getAllocator hnd.flags false]⟩
        ∨ (∃ fr, fr ≠ 0 ∧ reallocate_memory env (some hnd) mReqSize usage w
          = ⟨some (-1), some hnd, wd, pre ++ [Call.getAllocator hnd.flags true,
              Call.free_buffer (intToPtr hnd.base) hnd.size hnd.offset hnd.fd fr]⟩)
        ∨ (∃ ar out, ar ≠ 0 ∧ reallocate_memory env (some hnd) mReqSize usage w
          = ⟨some (-EINVAL), some hnd, wd, pre ++ [Call.getAllocator hnd.flags true,
              Call.free_buffer (intToPtr hnd.base) hnd.size hnd.offset hnd.fd 0,
              Call.allocate ⟨0, -1, 0, mReqSize, alignFor env hnd.format, true⟩
                usage 0 ar out]⟩)
        ∨ (∃ out, reallocate_memory env (some hnd) mReqSize usage w
          = ⟨some 0,
              some { hnd with
                fd := out.fd, base := ptrToInt out.base,
                offset := out.offset, size := out.size },
              wd, pre ++ [Call.getAllocator hnd.flags true,
              Call.free_buffer (intToPtr hnd.base) hnd.size hnd.offset hnd.fd 0,
              Call.allocate ⟨0, -1, 0, mReqSize, alignFor env hnd.format, true⟩
                usage 0 0 out]⟩)) := by
  -- the state and the log once `sAlloc` has been looked at
  obtain ⟨ok, a1, pre, hpre, hinst⟩ :
      ∃ (ok : Bool) (a1 : σ) (pre : List Call),
        ((pre = [] ∧ ok = true) ∨ pre = [Call.getInstance ok]) ∧
        (if w.sAlloc then ((true, w.allocator, []) : Bool × σ × List Call)
          else ((env.getInstance w.allocator).1, (env.getInstance w.allocator).2,
            [Call.getInstance (env.getInstance w.allocator).1])) = (ok, a1, pre) := by
    cases w.sAlloc
    · exact ⟨_, _, _, Or.inr rfl, rfl⟩
    · exact ⟨_, _, _, Or.inl ⟨rfl, rfl⟩, rfl⟩
  have hpre2 : pre = [] ∨ ∃ b, pre = [Call.getInstance b] := by
    rcases hpre with h | h
    · exact Or.inl h.1
    · exact Or.inr ⟨ok, h⟩
  unfold reallocate_memory
  simp only [hinst]
  cases ok with
  | false =>
    have hp : pre = [Call.getInstance false] := by
      rcases hpre with h | h
      · exact absurd h.2 (by decide)
      · exact h
    exact ⟨pre, ⟨false, a1⟩, hpre2, Or.inl (by simp [hp])⟩
  | true =>
    simp only [Bool.true_eq_false, if_false]
    cases hm : (env.getAllocator a1 hnd.flags).1 with
    | false =>
      exact ⟨pre, _, hpre2, Or.inr (Or.inl rfl)⟩
    | true =>
      simp only [Bool.true_eq_false, if_false]
      by_cases hf : (env.free_buffer (env.getAllocator a1 hnd.flags).2 (intToPtr hnd.base)
          hnd.size hnd.offset hnd.fd).1 = 0
      · simp only [hf, ne_eq, not_true_eq_false, if_false]
        by_cases ha : (env.allocate (env.free_buffer (env.getAllocator a1 hnd.flags).2
            (intToPtr hnd.base) hnd.size hnd.offset hnd.fd).2
            ⟨0, -1, 0, mReqSize, alignFor env hnd.format, true⟩ usage 0).1.1 = 0
        · simp only [ha, if_true]
          exact ⟨pre, _, hpre2, Or.inr (Or.inr (Or.inr (Or.inr ⟨_, rfl⟩)))⟩
        · simp only [ha, if_false]
          exact ⟨pre, _, hpre2, Or.inr (Or.inr (Or.inr (Or.inl ⟨_, _, ha, rfl⟩)))⟩
      · simp only [ne_eq, hf, not_false_eq_true, if_true]
        exact ⟨pre, _, hpre2, Or.inr (Or.inr (Or.inl ⟨_, hf, rfl⟩))⟩

/-- A run of `checkBuffer` either stops before `reallocate_memory` (it then
changes nothing, returns 0 or `-EINVAL` or faults on a null handle, and has
called at most `validate`), or it is a run of `reallocate_memory` on a
validated non-null handle whose size differs from the positive requested
size. -/
theorem checkBuffer_cases (env : Env σ) (handle : Option private_handle_t)
    (size usage : Int) (w : World σ) :
    (∃ ret calls, checkBuffer env handle size usage w = ⟨ret, handle, w, calls⟩ ∧
        (calls = [] ∨ calls = [Call.validate handle (env.validate handle)]) ∧
        (ret = some 0 ∨ (ret = some (-EINVAL) ∧ env.validate handle ≠ 0) ∨ ret = none)) ∨
    (∃ hnd, handle = some hnd ∧ 0 < size ∧ env.validate handle = 0 ∧ hnd.size ≠ size ∧
        checkBuffer env handle size usage w =
          { reallocate_memory env (some hnd) size usage w with
            calls := Call.validate (some hnd) 0 :: Call.reallocate_memory size usage ::
              (reallocate_memory env (some hnd) size usage w).calls }) := by
  unfold checkBuffer
  by_cases hs : 0 ≥ size
  · simp only [hs, if_true]
    exact Or.inl ⟨_, _, rfl, Or.inl rfl, Or.inl rfl⟩
  · simp only [hs, if_false]
    by_cases hv : env.validate handle = 0
    · simp only [hv, ne_eq, not_true_eq_false, if_false]
      cases handle with
      | none => exact Or.inl ⟨_, _, rfl, Or.inr rfl, Or.inr (Or.inr rfl)⟩
      | some hnd =>
        by_cases hsz : hnd.size = size
        · simp only [hsz, ne_eq, not_true_eq_false, if_false]
          exact Or.inl ⟨_, _, rfl, Or.inr rfl, Or.inl rfl⟩
        · simp only [ne_eq, hsz, not_false_eq_true, if_true]
          exact Or.inr ⟨hnd, rfl, by omega, trivial, hsz, rfl⟩
    · simp only [ne_eq, hv, not_false_eq_true, if_true]
      exact Or.inl ⟨_, _, rfl, Or.inr rfl, Or.inr (Or.inl ⟨rfl, trivial⟩)⟩

/-- The run of `checkBuffer` on a validated handle whose size differs from the
positive requested size is the run of `reallocate_memory`. -/
theorem checkBuffer_reallocates (env : Env σ) (h : private_handle_t)
    (size usage : Int) (w : World σ)
    (hv : env.validate (some h) = 0) (hs : 0 < size) (hne : h.size ≠ size) :
    checkBuffer env (some h) size usage w =
      { reallocate_memory env (some h) size usage w with
        calls := Call.validate (some h) 0 :: Call.reallocate_memory size usage ::
          (reallocate_memory env (some h) size usage w).calls } := by
  have hs2 : ¬ (0 ≥ size) := by omega
  unfold checkBuffer
  simp only [hs2, if_false, hv, ne_eq, not_true_eq_false, hne, not_false_eq_true, if_true]

/-- Casting an address to `int` and back gives the address again, as a 32 bit
value. -/
theorem intToPtr_ptrToInt (p : Nat) : intToPtr (ptrToInt p) = p % 4294967296 := by
  unfold intToPtr ptrToInt
  omega

/-! ## Properties of `checkBuffer` -/

/-- C4: on a handle that passes validation, with a positive requested size
equal to the size field of the handle, `checkBuffer` returns 0, its only call
is the validation (no `free_buffer`, no `allocate`, nothing else of the
allocator), and the handle and the allocator state are what they were. -/
theorem checkBuffer_same_size (env : Env σ) (h : private_handle_t)
    (size usage : Int) (w : World σ)
    (hv : env.validate (some h) = 0) (hs : 0 < size) (heq : h.size = size) :
    checkBuffer env (some h) size usage w =
      ⟨some 0, some h, w, [Call.validate (some h) 0]⟩ := by
  have hs2 : ¬ (0 ≥ size) := by omega
  unfold checkBuffer
  simp only [hs2, if_false, hv, ne_eq, not_true_eq_false, heq]

/-- Instance of C4: asking for the 4096 bytes the handle already has, with an
allocator that would fail every call. -/
theorem checkBuffer_same_size_witness :
    checkBuffer (demoEnv false 1 1) (some demoHandle) 4096 3 ⟨false, 1⟩ =
      ⟨some 0, some demoHandle, ⟨false, 1⟩, [Call.validate (some demoHandle) 0]⟩ :=
  checkBuffer_same_size (demoEnv false 1 1) demoHandle 4096 3 ⟨false, 1⟩
    (by decide) (by decide) (by decide)

/-- C5: with a requested size of zero or less, `checkBuffer` returns 0 for
every handle pointer (null included) and every validation function, calls
nothing (no validation, no allocator call) and leaves handle and allocator
state as they were. And in every run of `checkBuffer`, each entry into
`reallocate_memory` is with the requested size, which is positive. -/
theorem checkBuffer_no_size (env : Env σ) (handle : Option private_handle_t)
    (size usage : Int) (w : World σ) (hs : size ≤ 0) :
    checkBuffer env handle size usage w = ⟨some 0, handle, w, []⟩ ∧
    (∀ (handle2 : Option private_handle_t) (size2 usage2 : Int) (w2 : World σ)
        (m u : Int),
        Call.reallocate_memory m u ∈ (checkBuffer env handle2 size2 usage2 w2).calls →
        m = size2 ∧ 0 < m) := by
  constructor
  · have hs2 : 0 ≥ size := hs
    unfold checkBuffer
    simp only [hs2, if_true]
  · intro handle2 size2 usage2 w2 m u hmem
    rcases checkBuffer_cases env handle2 size2 usage2 w2 with
      ⟨ret, calls, hrun, hcalls, _⟩ | ⟨hnd, _, hpos, _, _, hrun⟩
    · rw [hrun] at hmem
      rcases hcalls with hc | hc <;> simp [hc] at hmem
    · rw [hrun] at hmem
      obtain ⟨pre, wd, hpre, hcase⟩ := reallocate_memory_outcomes env hnd size2 usage2 w2
      have key : Call.reallocate_memory m u ∉
          (reallocate_memory env (some hnd) size2 usage2 w2).calls := by
        rcases hcase with h | h | ⟨fr, _, h⟩ | ⟨ar, out, _, h⟩ | ⟨out, h⟩ <;>
          rcases hpre with hp | ⟨b, hp⟩ <;> simp [h, hp]
      simp only [List.mem_cons, Call.reallocate_memory.injEq, reduceCtorEq, false_or] at hmem
      rcases hmem with ⟨h1, _⟩ | h1
      · exact ⟨h1, by omega⟩
      · exact absurd h1 key

/-- Instance of C5: a null handle pointer and the size 0. -/
theorem checkBuffer_no_size_witness :
    checkBuffer (demoEnv true 0 0) none 0 3 ⟨false, 1⟩ = ⟨some 0, none, ⟨false, 1⟩, []⟩ :=
  (checkBuffer_no_size (demoEnv true 0 0) none 0 3 ⟨false, 1⟩ (by decide)).1

/-- C6: with a positive requested size and a handle pointer that fails
validation (null or not), `checkBuffer` returns `-EINVAL`; its only call is the
validation, so the allocator is not called, and handle and allocator state are
what they were. -/
theorem checkBuffer_invalid_handle (env : Env σ) (handle : Option private_handle_t)
    (size usage : Int) (w : World σ)
    (hs : 0 < size) (hv : env.validate handle ≠ 0) :
    checkBuffer env handle size usage w =
      ⟨some (-EINVAL), handle, w, [Call.validate handle (env.validate handle)]⟩ := by
  have hs2 : ¬ (0 ≥ size) := by omega
  unfold checkBuffer
  simp only [hs2, if_false, ne_eq, hv, not_false_eq_true, if_true]

/-- Instance of C6: a non-null handle with a negative file descriptor, which
the validation of `demoEnv` rejects. -/
theorem checkBuffer_invalid_handle_witness :
    checkBuffer (demoEnv true 0 0) (some { demoHandle with fd := -1 }) 8000 3 ⟨false, 1⟩ =
      ⟨some (-22), some { demoHandle with fd := -1 }, ⟨false, 1⟩,
        [Call.validate (some { demoHandle with fd := -1 }) (-22)]⟩ :=
  checkBuffer_invalid_handle (demoEnv true 0 0) (some { demoHandle with fd := -1 }) 8000 3
    ⟨false, 1⟩ (by decide) (by decide)

/-- C7: on a validated handle whose size differs from the positive requested
size, every `free_buffer` call of `checkBuffer` is made with the current base,
size, offset and fd of the handle, and if it reports failure then
`checkBuffer` returns -1 and `allocate` is not called. In every run of
`checkBuffer`, on any input, either `allocate` is not called, or it is called
exactly once, as the last call, right after a `free_buffer` on the handle that
returned 0. -/
theorem checkBuffer_free_failure (env : Env σ) (h : private_handle_t)
    (size usage : Int) (w : World σ)
    (hv : env.validate (some h) = 0) (hs : 0 < size) (hne : h.size ≠ size) :
    (∀ b s o f ret,
        Call.free_buffer b s o f ret ∈ (checkBuffer env (some h) size usage w).calls →
        (b = intToPtr h.base ∧ s = h.size ∧ o = h.offset ∧ f = h.fd) ∧
        (ret ≠ 0 →
          (checkBuffer env (some h) size usage w).ret = some (-1) ∧
          ∀ c ∈ (checkBuffer env (some h) size usage w).calls, c.isAllocate = false)) ∧
    (∀ (handle : Option private_handle_t) (size2 usage2 : Int) (w2 : World σ),
        (∀ c ∈ (checkBuffer env handle size2 usage2 w2).calls, c.isAllocate = false) ∨
        ∃ pre hnd data ret out, handle = some hnd ∧
          (checkBuffer env handle size2 usage2 w2).calls = pre ++
            [Call.free_buffer (intToPtr hnd.base) hnd.size hnd.offset hnd.fd 0,
              Call.allocate data usage2 0 ret out] ∧
          ∀ c ∈ pre, c.isAllocate = false) := by
  constructor
  · intro b s o f ret hmem
    rw [checkBuffer_reallocates env h size usage w hv hs hne] at hmem ⊢
    obtain ⟨pre, wd, hpre, hcase⟩ := reallocate_memory_outcomes env h size usage w
    have hpre1 : ∀ c ∈ pre, c.isAllocate = false ∧
        ∀ b s o f ret, c ≠ Call.free_buffer b s o f ret := by
      rcases hpre with hp | ⟨b2, hp⟩ <;> simp [hp, Call.isAllocate]
    rcases hcase with hr | hr | ⟨fr, hfr, hr⟩ | ⟨ar, out, har, hr⟩ | ⟨out, hr⟩
    · simp [hr] at hmem
    · simp only [hr, List.mem_cons, List.mem_append, List.mem_singleton, reduceCtorEq,
        false_or, or_false, List.not_mem_nil] at hmem
      exact absurd rfl ((hpre1 _ hmem).2 b s o f ret)
    · simp only [hr, List.mem_cons, List.mem_append, List.mem_singleton, reduceCtorEq,
        false_or, or_false, List.not_mem_nil, Call.free_buffer.injEq] at hmem
      rcases hmem with hmem | ⟨h1, h2, h3, h4, h5⟩
      · exact absurd rfl ((hpre1 _ hmem).2 b s o f ret)
      · refine ⟨⟨h1, h2, h3, h4⟩, fun _ => ⟨by simp [hr], ?_⟩⟩
        intro c hc
        simp only [hr, List.mem_cons, List.mem_append, List.mem_singleton,
          List.not_mem_nil, or_false] at hc
        rcases hc with hc | hc | hc | hc | hc
        · simp [hc, Call.isAllocate]
        · simp [hc, Call.isAllocate]
        · exact (hpre1 c hc).1
        · simp [hc, Call.isAllocate]
        · simp [hc, Call.isAllocate]
    · simp only [hr, List.mem_cons, List.mem_append, List.mem_singleton, reduceCtorEq,
        false_or, or_false, List.not_mem_nil, Call.free_buffer.injEq] at hmem
      rcases hmem with hmem | ⟨h1, h2, h3, h4, h5⟩
      · exact absurd rfl ((hpre1 _ hmem).2 b s o f ret)
      · exact ⟨⟨h1, h2, h3, h4⟩, fun hret => absurd h5 hret⟩
    · simp only [hr, List.mem_cons, List.mem_append, List.mem_singleton, reduceCtorEq,
        false_or, or_false, List.not_mem_nil, Call.free_buffer.injEq] at hmem
      rcases hmem with hmem | ⟨h1, h2, h3, h4, h5⟩
      · exact absurd rfl ((hpre1 _ hmem).2 b s o f ret)
      · exact ⟨⟨h1, h2, h3, h4⟩, fun hret => absurd h5 hret⟩
  · intro handle size2 usage2 w2
    rcases checkBuffer_cases env handle size2 usage2 w2 with
      ⟨ret, calls, hrun, hcalls, _⟩ | ⟨hnd, hh, _, _, _, hrun⟩
    · left
      rw [hrun]
      rcases hcalls with hc | hc <;> simp [hc, Call.isAllocate]
    · rw [hrun]
      obtain ⟨pre, wd, hpre, hcase⟩ := reallocate_memory_outcomes env hnd size2 usage2 w2
      have hpre3 : ∀ c ∈ Call.validate (some hnd) 0 :: Call.reallocate_memory size2 usage2 ::
          (pre ++ [Call.getAllocator hnd.flags true]), c.isAllocate = false := by
        rcases hpre with hp | ⟨b2, hp⟩ <;> simp [hp, Call.isAllocate]
      rcases hcase with hr | hr | ⟨fr, hfr, hr⟩ | ⟨ar, out, har, hr⟩ | ⟨out, hr⟩
      · left
        simp [hr, Call.isAllocate]
      · left
        rcases hpre with hp | ⟨b2, hp⟩ <;> simp [hr, hp, Call.isAllocate]
      · left
        rcases hpre with hp | ⟨b2, hp⟩ <;> simp [hr, hp, Call.isAllocate]
      · right
        exact ⟨Call.validate (some hnd) 0 :: Call.reallocate_memory size2 usage2 ::
            (pre ++ [Call.getAllocator hnd.flags true]), hnd,
          ⟨0, -1, 0, size2, alignFor env hnd.format, true⟩, ar, out, hh, by simp [hr], hpre3⟩
      · right
        exact ⟨Call.validate (some hnd) 0 :: Call.reallocate_memory size2 usage2 ::
            (pre ++ [Call.getAllocator hnd.flags true]), hnd,
          ⟨0, -1, 0, size2, alignFor env hnd.format, true⟩, 0, out, hh, by simp [hr], hpre3⟩

/-- Instance of C7: `free_buffer` answers 1; `checkBuffer` returns -1 and the
log holds no `allocate`. -/
theorem checkBuffer_free_failure_witness :
    Call.free_buffer 0x30000000 4096 0 5 1 ∈
        (checkBuffer (demoEnv true 1 0) (some demoHandle) 8000 3 ⟨false, 1⟩).calls ∧
    (checkBuffer (demoEnv true 1 0) (some demoHandle) 8000 3 ⟨false, 1⟩).ret = some (-1) ∧
    ∀ c ∈ (checkBuffer (demoEnv true 1 0) (some demoHandle) 8000 3 ⟨false, 1⟩).calls,
      c.isAllocate = false :=
  ⟨by decide,
    (((checkBuffer_free_failure (demoEnv true 1 0) demoHandle 8000 3 ⟨false, 1⟩
      (by decide) (by decide) (by decide)).1 0x30000000 4096 0 5 1 (by decide)).2
      (by decide))⟩

/-- C8: on a validated handle whose size differs from the positive requested
size, if `allocate` is called and fails (which only happens after
`free_buffer` has succeeded), `checkBuffer` returns `-EINVAL`, which is not
zero: the failure is reported to the caller. -/
theorem checkBuffer_allocate_failure (env : Env σ) (h : private_handle_t)
    (size usage : Int) (w : World σ)
    (hv : env.validate (some h) = 0) (hs : 0 < size) (hne : h.size ≠ size)
    (data out : alloc_data) (allocFlags compositionType ret : Int)
    (hcall : Call.allocate data allocFlags compositionType ret out ∈
      (checkBuffer env (some h) size usage w).calls)
    (hfail : ret ≠ 0) :
    Call.free_buffer (intToPtr h.base) h.size h.offset h.fd 0 ∈
      (checkBuffer env (some h) size usage w).calls ∧
    (checkBuffer env (some h) size usage w).ret = some (-EINVAL) ∧
    (checkBuffer env (some h) size usage w).ret ≠ some 0 ∧
    (checkBuffer env (some h) size usage w).ret ≠ none := by
  rw [checkBuffer_reallocates env h size usage w hv hs hne] at hcall ⊢
  obtain ⟨pre, wd, hpre, hcase⟩ := reallocate_memory_outcomes env h size usage w
  rcases hcase with hr | hr | ⟨fr, hfr, hr⟩ | ⟨ar, out2, har, hr⟩ | ⟨out2, hr⟩ <;>
    rcases hpre with hp | ⟨b2, hp⟩ <;>
    simp only [hr, hp, List.mem_cons, List.mem_singleton, List.nil_append, List.cons_append,
      List.not_mem_nil, reduceCtorEq, Call.allocate.injEq, false_or, or_false] at hcall <;>
    first
    | (obtain ⟨_, _, _, h4, _⟩ := hcall
       exact absurd h4 hfail)
    | simp [hr, hp, EINVAL]

/-- Instance of C8: `free_buffer` answers 0 and `allocate` answers -12;
`checkBuffer` returns -22. -/
theorem checkBuffer_allocate_failure_witness :
    Call.free_buffer 0x30000000 4096 0 5 0 ∈
      (checkBuffer (demoEnv true 0 (-12)) (some demoHandle) 8000 3 ⟨true, 1⟩).calls ∧
    (checkBuffer (demoEnv true 0 (-12)) (some demoHandle) 8000 3 ⟨true, 1⟩).ret = some (-22) :=
  have hrun := checkBuffer_allocate_failure (demoEnv true 0 (-12)) demoHandle 8000 3 ⟨true, 1⟩
    (by decide) (by decide) (by decide)
    ⟨0, -1, 0, 8000, 4096, true⟩ ⟨0, -1, 0, 8000, 4096, true⟩ 3 0 (-12) (by decide) (by decide)
  ⟨hrun.1, hrun.2.1⟩

/-- C9: whenever `checkBuffer` returns a non-zero value, the handle pointer
and every field of the handle are what they were before the call. The
non-zero return has one of four causes: validation failed, no allocator
controller was available, `free_buffer` on the handle failed (the handle
still describes its original memory), or `allocate` failed after
`free_buffer` on the handle had succeeded (the handle still describes the
allocation that was freed). -/
theorem checkBuffer_error_keeps_handle (env : Env σ) (handle : Option private_handle_t)
    (size usage : Int) (w : World σ) (v : Int)
    (hret : (checkBuffer env handle size usage w).ret = some v) (hnz : v ≠ 0) :
    (checkBuffer env handle size usage w).handle = handle ∧
    (env.validate handle ≠ 0 ∨
      Call.getInstance false ∈ (checkBuffer env handle size usage w).calls ∨
      (∃ hnd ret, handle = some hnd ∧ ret ≠ 0 ∧
        Call.free_buffer (intToPtr hnd.base) hnd.size hnd.offset hnd.fd ret ∈
          (checkBuffer env handle size usage w).calls) ∨
      (∃ hnd data ret out, handle = some hnd ∧ ret ≠ 0 ∧
        Call.free_buffer (intToPtr hnd.base) hnd.size hnd.offset hnd.fd 0 ∈
          (checkBuffer env handle size usage w).calls ∧
        Call.allocate data usage 0 ret out ∈
          (checkBuffer env handle size usage w).calls)) := by
  rcases checkBuffer_cases env handle size usage w with
    ⟨ret, calls, hrun, _, hcause⟩ | ⟨hnd, hh, _, _, _, hrun⟩
  · rw [hrun] at hret ⊢
    refine ⟨rfl, ?_⟩
    rcases hcause with hc | ⟨_, hc⟩ | hc
    · simp only [hc, Option.some.injEq] at hret
      exact absurd hret.symm hnz
    · exact Or.inl hc
    · simp [hc] at hret
  · rw [hrun] at hret ⊢
    obtain ⟨pre, wd, hpre, hcase⟩ := reallocate_memory_outcomes env hnd size usage w
    rcases hcase with hr | hr | ⟨fr, hfr, hr⟩ | ⟨ar, out, har, hr⟩ | ⟨out, hr⟩
    · exact ⟨by simp [hr, hh], Or.inr (Or.inl (by simp [hr]))⟩
    · simp [hr] at hret
    · exact ⟨by simp [hr, hh], Or.inr (Or.inr (Or.inl ⟨hnd, fr, hh, hfr, by simp [hr]⟩))⟩
    · exact ⟨by simp [hr, hh], Or.inr (Or.inr (Or.inr
        ⟨hnd, ⟨0, -1, 0, size, alignFor env hnd.format, true⟩, ar, out, hh, har,
          by simp [hr], by simp [hr]⟩))⟩
    · simp only [hr, Option.some.injEq] at hret
      exact absurd hret.symm hnz

/-- Instance of C9: `allocate` fails after `free_buffer` succeeded; the handle
keeps the fd, base, offset and size of the freed allocation. -/
theorem checkBuffer_error_keeps_handle_witness :
    (checkBuffer (demoEnv true 0 (-12)) (some demoHandle) 8000 3 ⟨true, 1⟩).ret = some (-22) ∧
    (checkBuffer (demoEnv true 0 (-12)) (some demoHandle) 8000 3 ⟨true, 1⟩).handle =
      some demoHandle :=
  ⟨by decide,
    (checkBuffer_error_keeps_handle (demoEnv true 0 (-12)) (some demoHandle) 8000 3 ⟨true, 1⟩
      (-22) (by decide) (by decide)).1⟩

/-- C10: on a validated handle whose size differs from the positive requested
size, if `allocate` is called and returns 0 (which only happens after
`free_buffer` has succeeded), `checkBuffer` returns 0 and the handle afterwards
is the handle before with fd, base, offset and size replaced by those of the
descriptor `allocate` left behind; width, height, format, flags and the
remaining field keep their values. The base is stored through the cast
`(int)data.base`, which keeps the 32 bit address. -/
theorem checkBuffer_success_updates_handle (env : Env σ) (h : private_handle_t)
    (size usage : Int) (w : World σ)
    (hv : env.validate (some h) = 0) (hs : 0 < size) (hne : h.size ≠ size)
    (data out : alloc_data) (allocFlags compositionType : Int)
    (hcall : Call.allocate data allocFlags compositionType 0 out ∈
      (checkBuffer env (some h) size usage w).calls) :
    Call.free_buffer (intToPtr h.base) h.size h.offset h.fd 0 ∈
      (checkBuffer env (some h) size usage w).calls ∧
    (checkBuffer env (some h) size usage w).ret = some 0 ∧
    (checkBuffer env (some h) size usage w).handle =
      some { fd := out.fd, base := ptrToInt out.base, size := out.size, offset := out.offset,
             alignmentBytes := h.alignmentBytes, format := h.format, width := h.width,
             height := h.height, flags := h.flags } ∧
    intToPtr (ptrToInt out.base) = out.base % 4294967296 := by
  refine ⟨?_, ?_, ?_, intToPtr_ptrToInt out.base⟩ <;>
  · rw [checkBuffer_reallocates env h size usage w hv hs hne] at hcall ⊢
    obtain ⟨pre, wd, hpre, hcase⟩ := reallocate_memory_outcomes env h size usage w
    rcases hcase with hr | hr | ⟨fr, hfr, hr⟩ | ⟨ar, out2, har, hr⟩ | ⟨out2, hr⟩ <;>
      rcases hpre with hp | ⟨b2, hp⟩ <;>
      simp only [hr, hp, List.mem_cons, List.mem_singleton, List.nil_append, List.cons_append,
        List.not_mem_nil, reduceCtorEq, Call.allocate.injEq, false_or, or_false] at hcall <;>
      first
      | (obtain ⟨_, _, _, h4, _⟩ := hcall
         exact absurd h4.symm har)
      | (obtain ⟨_, _, _, _, h5⟩ := hcall
         subst h5
         simp [hr, hp])

/-- Instance of C10: both allocator calls succeed; the handle gets fd 7, base
`0x40000000`, offset 0 and size 8192 and keeps its geometry and flags. -/
theorem checkBuffer_success_updates_handle_witness :
    (checkBuffer (demoEnv true 0 0) (some demoHandle) 8000 3 ⟨false, 1⟩).ret = some 0 ∧
    (checkBuffer (demoEnv true 0 0) (some demoHandle) 8000 3 ⟨false, 1⟩).handle =
      some { fd := 7, base := 0x40000000, size := 8192, offset := 0, alignmentBytes := 4096,
             format := 1, width := 32, height := 32, flags := 0 } :=
  have hrun := checkBuffer_success_updates_handle (demoEnv true 0 0) demoHandle 8000 3 ⟨false, 1⟩
    (by decide) (by decide) (by decide)
    ⟨0, -1, 0, 8000, 4096, true⟩ ⟨0x40000000, 7, 0, 8192, 4096, true⟩ 3 0 (by decide)
  ⟨hrun.2.1, hrun.2.2.1⟩

/-! ## The allocation request and the size after `checkBuffer` -/

/-- C11: every `allocate` call that `reallocate_memory` makes for a handle `h`,
a requested size `s` and a usage `u` passes a request with size `s`, uncached
set, base 0, fd -1, offset 0, the allocation flags `u`, and an alignment of
8192 when `h.format` is `HAL_PIXEL_FORMAT_YCbCr_420_SP_TILED` or that constant
xor `HAL_PIXEL_FORMAT_INTERLACE`, and of the page size for every other
format. -/
theorem reallocate_memory_request (env : Env σ) (h : private_handle_t)
    (s u : Int) (w : World σ)
    (data out : alloc_data) (allocFlags compositionType ret : Int)
    (hcall : Call.allocate data allocFlags compositionType ret out ∈
      (reallocate_memory env (some h) s u w).calls) :
    data.size = s ∧ data.uncached = true ∧ data.base = 0 ∧ data.fd = -1 ∧
    data.offset = 0 ∧ allocFlags = u ∧
    ((h.format = env.HAL_PIXEL_FORMAT_YCbCr_420_SP_TILED ∨
        h.format = Int.xor env.HAL_PIXEL_FORMAT_YCbCr_420_SP_TILED
          env.HAL_PIXEL_FORMAT_INTERLACE) → data.align = 8192) ∧
    (¬ (h.format = env.HAL_PIXEL_FORMAT_YCbCr_420_SP_TILED ∨
        h.format = Int.xor env.HAL_PIXEL_FORMAT_YCbCr_420_SP_TILED
          env.HAL_PIXEL_FORMAT_INTERLACE) → data.align = env.pagesize) := by
  have hdata : data = ⟨0, -1, 0, s, alignFor env h.format, true⟩ ∧ allocFlags = u := by
    obtain ⟨pre, wd, hpre, hcase⟩ := reallocate_memory_outcomes env h s u w
    rcases hcase with hr | hr | ⟨fr, hfr, hr⟩ | ⟨ar, out2, har, hr⟩ | ⟨out2, hr⟩ <;>
      rcases hpre with hp | ⟨b2, hp⟩ <;>
      simp only [hr, hp, List.mem_cons, List.mem_singleton, List.nil_append, List.cons_append,
        List.not_mem_nil, reduceCtorEq, Call.allocate.injEq, false_or, or_false] at hcall <;>
      exact ⟨hcall.1, hcall.2.1⟩
  obtain ⟨hd, hf⟩ := hdata
  subst hd
  refine ⟨rfl, rfl, rfl, rfl, rfl, hf, ?_, ?_⟩
  · intro hfmt
    simp only [alignFor, hfmt, if_true]
  · intro hfmt
    simp only [alignFor, hfmt, if_false]

/-- Instance of C11: a handle in the tiled format `0x7FA30C03`; the request
asks for 8000 bytes aligned to 8192. -/
theorem reallocate_memory_request_witness :
    Call.allocate ⟨0, -1, 0, 8000, 8192, true⟩ 3 0 0 ⟨0x40000000, 7, 0, 8192, 8192, true⟩ ∈
      (reallocate_memory (demoEnv true 0 0) (some { demoHandle with format := 0x7FA30C03 })
        8000 3 ⟨true, 1⟩).calls ∧
    (⟨0, -1, 0, 8000, 8192, true⟩ : alloc_data).align = 8192 :=
  ⟨by decide,
    (reallocate_memory_request (demoEnv true 0 0) { demoHandle with format := 0x7FA30C03 }
      8000 3 ⟨true, 1⟩ ⟨0, -1, 0, 8000, 8192, true⟩ ⟨0x40000000, 7, 0, 8192, 8192, true⟩
      3 0 0 (by decide)).2.2.2.2.2.2.1 (Or.inl (by decide))⟩

/-- C12 as stated fails: the allocator of `demoEnv` rounds the size of the
request up to a multiple of 4096. On a valid handle of 4096 bytes and a
requested size of 8000, `checkBuffer` returns 0 and the size field of the
handle is 8192 afterwards. -/
theorem checkBuffer_size_counterexample :
    (demoEnv true 0 0).validate (some demoHandle) = 0 ∧ (0 : Int) < 8000 ∧
    (checkBuffer (demoEnv true 0 0) (some demoHandle) 8000 3 ⟨false, 1⟩).ret = some 0 ∧
    ((checkBuffer (demoEnv true 0 0) (some demoHandle) 8000 3 ⟨false, 1⟩).handle.map
      (fun hnd => hnd.size)) = some 8192 ∧
    (8192 : Int) ≠ 8000 := by
  decide

/-- C12 (amended): on a valid handle and a positive requested size, if
`checkBuffer` returns 0 then the handle is still there and its size field is
the requested size when no reallocation was needed; otherwise it is the size
field of the descriptor that the one successful `allocate` call left behind,
whose request asked for the requested size. So it is the requested size
whenever the allocator leaves the size field of the request as it was. -/
theorem checkBuffer_size_after_success (env : Env σ) (h : private_handle_t)
    (size usage : Int) (w : World σ)
    (hv : env.validate (some h) = 0) (hs : 0 < size)
    (hret : (checkBuffer env (some h) size usage w).ret = some 0) :
    ∃ h2, (checkBuffer env (some h) size usage w).handle = some h2 ∧
      (h.size = size → h2 = h ∧ h2.size = size) ∧
      (h.size ≠ size → ∃ data out,
        Call.allocate data usage 0 0 out ∈ (checkBuffer env (some h) size usage w).calls ∧
        data.size = size ∧ h2.size = out.size ∧ (out.size = data.size → h2.size = size)) := by
  by_cases hsz : h.size = size
  · rw [checkBuffer_same_size env h size usage w hv hs hsz]
    exact ⟨h, rfl, fun _ => ⟨rfl, hsz⟩, fun hne => absurd hsz hne⟩
  · rw [checkBuffer_reallocates env h size usage w hv hs hsz] at hret ⊢
    obtain ⟨pre, wd, hpre, hcase⟩ := reallocate_memory_outcomes env h size usage w
    rcases hcase with hr | hr | ⟨fr, hfr, hr⟩ | ⟨ar, out, har, hr⟩ | ⟨out, hr⟩
    · simp [hr, EINVAL] at hret
    · simp [hr] at hret
    · simp [hr] at hret
    · simp [hr, EINVAL] at hret
    · rw [hr]
      exact ⟨_, rfl, fun heq => absurd heq hsz, fun _ =>
        ⟨⟨0, -1, 0, size, alignFor env h.format, true⟩, out, by simp, rfl, rfl, fun ho => ho⟩⟩

/-- Instance of the amended C12: the allocator rounds 8000 up to 8192, and
8192 is the size of the handle after the call. -/
theorem checkBuffer_size_after_success_witness :
    ∃ h2, (checkBuffer (demoEnv true 0 0) (some demoHandle) 8000 3 ⟨false, 1⟩).handle = some h2 ∧
      h2.size = 8192 := by
  obtain ⟨h2, hh, _, _⟩ := checkBuffer_size_after_success (demoEnv true 0 0) demoHandle 8000 3
    ⟨false, 1⟩ (by decide) (by decide) (by decide)
  refine ⟨h2, hh, ?_⟩
  have hrun : (checkBuffer (demoEnv true 0 0) (some demoHandle) 8000 3 ⟨false, 1⟩).handle =
      some { demoHandle with fd := 7, base := 0x40000000, size := 8192 } := by decide
  rw [hrun] at hh
  cases hh
  rfl

/-! ## The runs of `updateBufferGeometry` -/

/-- The run on a buffer whose mirror already equals the fully set geometry. -/
theorem updateBufferGeometry_already (validate : Option private_handle_t → Int)
    (b : GraphicBuffer) (g : qBufGeometry)
    (hz : ¬ (g.width = 0 ∨ g.height = 0 ∨ g.format = 0))
    (hm : b.width = g.width ∧ b.height = g.height ∧ b.format = g.format) :
    updateBufferGeometry validate (some b) g = ⟨0, some b, []⟩ := by
  simp only [updateBufferGeometry, hz, if_false, hm, and_self, if_true]

/-- The run on a buffer whose mirror differs from the fully set geometry and
whose handle fails validation. -/
theorem updateBufferGeometry_invalid (validate : Option private_handle_t → Int)
    (b : GraphicBuffer) (g : qBufGeometry)
    (hz : ¬ (g.width = 0 ∨ g.height = 0 ∨ g.format = 0))
    (hm : ¬ (b.width = g.width ∧ b.height = g.height ∧ b.format = g.format))
    (hv : validate b.handle ≠ 0) :
    updateBufferGeometry validate (some b) g =
      ⟨-EINVAL, some b, [Call.validate b.handle (validate b.handle)]⟩ := by
  simp only [updateBufferGeometry, hz, if_false, hm, ne_eq, hv, not_false_eq_true, if_true]

/-- The run on a buffer whose mirror differs from the fully set geometry and
whose non-null handle passes validation: mirror and handle are written. -/
theorem updateBufferGeometry_written (validate : Option private_handle_t → Int)
    (b : GraphicBuffer) (hnd : private_handle_t) (g : qBufGeometry)
    (hz : ¬ (g.width = 0 ∨ g.height = 0 ∨ g.format = 0))
    (hm : ¬ (b.width = g.width ∧ b.height = g.height ∧ b.format = g.format))
    (hb : b.handle = some hnd) (hv : validate (some hnd) = 0) :
    updateBufferGeometry validate (some b) g =
      ⟨0, some ⟨g.width, g.height, g.format,
          some { hnd with width := g.width, height := g.height, format := g.format }⟩,
        [Call.validate (some hnd) 0]⟩ := by
  obtain ⟨bw, bh, bf, bhnd⟩ := b
  simp only at hb hm
  subst hb
  simp only [updateBufferGeometry, hz, if_false, hm, ne_eq, hv, not_true_eq_false]

/-- The run on a buffer whose mirror differs from the fully set geometry and
whose null handle passes validation: only the mirror is written. -/
theorem updateBufferGeometry_null_handle (validate : Option private_handle_t → Int)
    (b : GraphicBuffer) (g : qBufGeometry)
    (hz : ¬ (g.width = 0 ∨ g.height = 0 ∨ g.format = 0))
    (hm : ¬ (b.width = g.width ∧ b.height = g.height ∧ b.format = g.format))
    (hb : b.handle = none) (hv : validate none = 0) :
    updateBufferGeometry validate (some b) g =
      ⟨-EINVAL, some ⟨g.width, g.height, g.format, none⟩, [Call.validate none 0]⟩ := by
  obtain ⟨bw, bh, bf, bhnd⟩ := b
  simp only at hb hm
  subst hb
  simp only [updateBufferGeometry, hz, if_false, hm, ne_eq, hv, not_true_eq_false]

/-! ## Properties of `updateBufferGeometry` -/

/-- C13: for a non-null buffer and a geometry with three non-zero fields, if
`updateBufferGeometry` returns 0, a second call with the same geometry returns
0 too, calls nothing (the handle is not validated again) and leaves the
mirrored width, height and format and the whole handle as they are. -/
theorem updateBufferGeometry_idempotent
    (validate validate2 : Option private_handle_t → Int)
    (b : GraphicBuffer) (g : qBufGeometry)
    (hw : g.width ≠ 0) (hh : g.height ≠ 0) (hf : g.format ≠ 0)
    (hret : (updateBufferGeometry validate (some b) g).ret = 0) :
    updateBufferGeometry validate2 (updateBufferGeometry validate (some b) g).buffer g =
      ⟨0, (updateBufferGeometry validate (some b) g).buffer, []⟩ := by
  have hz : ¬ (g.width = 0 ∨ g.height = 0 ∨ g.format = 0) := by
    rintro (h | h | h)
    · exact hw h
    · exact hh h
    · exact hf h
  by_cases hm : b.width = g.width ∧ b.height = g.height ∧ b.format = g.format
  · rw [updateBufferGeometry_already validate b g hz hm]
    exact updateBufferGeometry_already validate2 b g hz hm
  · by_cases hv : validate b.handle = 0
    · cases hb : b.handle with
      | none =>
        rw [hb] at hv
        rw [updateBufferGeometry_null_handle validate b g hz hm hb hv] at hret
        simp [EINVAL] at hret
      | some hnd =>
        rw [hb] at hv
        rw [updateBufferGeometry_written validate b hnd g hz hm hb hv]
        exact updateBufferGeometry_already validate2 _ g hz ⟨rfl, rfl, rfl⟩
    · rw [updateBufferGeometry_invalid validate b g hz hm hv] at hret
      simp [EINVAL] at hret

/-- Instance of C13: `demoBuffer` is updated to 64 by 64 in format 2, then
the same update is applied again. -/
theorem updateBufferGeometry_idempotent_witness :
    (updateBufferGeometry (demoEnv true 0 0).validate (some demoBuffer) ⟨64, 64, 2⟩).ret = 0 ∧
    updateBufferGeometry (demoEnv true 0 0).validate
        (updateBufferGeometry (demoEnv true 0 0).validate (some demoBuffer) ⟨64, 64, 2⟩).buffer
        ⟨64, 64, 2⟩ =
      ⟨0, (updateBufferGeometry (demoEnv true 0 0).validate (some demoBuffer) ⟨64, 64, 2⟩).buffer,
        []⟩ :=
  ⟨by decide,
    updateBufferGeometry_idempotent (demoEnv true 0 0).validate (demoEnv true 0 0).validate
      demoBuffer ⟨64, 64, 2⟩ (by decide) (by decide) (by decide) (by decide)⟩

/-- C14: for a non-null buffer whose mirrored width, height and format are
those of its handle, and a geometry with three non-zero fields, if
`updateBufferGeometry` returns 0 then afterwards the mirrored width, height
and format and those of the handle all equal the geometry. -/
theorem updateBufferGeometry_mirror_agrees (validate : Option private_handle_t → Int)
    (b : GraphicBuffer) (h : private_handle_t) (g : qBufGeometry)
    (hhandle : b.handle = some h)
    (hagree : h.width = b.width ∧ h.height = b.height ∧ h.format = b.format)
    (hw : g.width ≠ 0) (hh : g.height ≠ 0) (hf : g.format ≠ 0)
    (hret : (updateBufferGeometry validate (some b) g).ret = 0) :
    ∃ b2 h2, (updateBufferGeometry validate (some b) g).buffer = some b2 ∧
      b2.handle = some h2 ∧
      b2.width = g.width ∧ b2.height = g.height ∧ b2.format = g.format ∧
      h2.width = g.width ∧ h2.height = g.height ∧ h2.format = g.format := by
  have hz : ¬ (g.width = 0 ∨ g.height = 0 ∨ g.format = 0) := by
    rintro (h | h | h)
    · exact hw h
    · exact hh h
    · exact hf h
  by_cases hm : b.width = g.width ∧ b.height = g.height ∧ b.format = g.format
  · rw [updateBufferGeometry_already validate b g hz hm]
    exact ⟨b, h, rfl, hhandle, hm.1, hm.2.1, hm.2.2, hagree.1.trans hm.1,
      hagree.2.1.trans hm.2.1, hagree.2.2.trans hm.2.2⟩
  · by_cases hv : validate b.handle = 0
    · rw [hhandle] at hv
      rw [updateBufferGeometry_written validate b h g hz hm hhandle hv]
      exact ⟨_, _, rfl, rfl, rfl, rfl, rfl, rfl, rfl, rfl⟩
    · rw [updateBufferGeometry_invalid validate b g hz hm hv] at hret
      simp [EINVAL] at hret

/-- Instance of C14: `demoBuffer` mirrors `demoHandle`; after the update both
are 64 by 64 in format 2. -/
theorem updateBufferGeometry_mirror_agrees_witness :
    ∃ b2 h2,
      (updateBufferGeometry (demoEnv true 0 0).validate (some demoBuffer) ⟨64, 64, 2⟩).buffer =
        some b2 ∧
      b2.handle = some h2 ∧
      b2.width = 64 ∧ b2.height = 64 ∧ b2.format = 2 ∧
      h2.width = 64 ∧ h2.height = 64 ∧ h2.format = 2 :=
  updateBufferGeometry_mirror_agrees (demoEnv true 0 0).validate demoBuffer demoHandle
    ⟨64, 64, 2⟩ rfl (by decide) (by decide) (by decide) (by decide) (by decide)

/-- C15: when handle validation rejects the null handle, every non-zero
return of `updateBufferGeometry` is `-EINVAL` and leaves the buffer, its
mirrored width, height and format and its handle unchanged; it happens when
the buffer is null, or when the geometry is fully set, differs from the mirror
and the handle fails validation. So the branch that returns `-EINVAL` after
the mirror was written is not taken. -/
theorem updateBufferGeometry_failure_atomic (validate : Option private_handle_t → Int)
    (buffer : Option GraphicBuffer) (g : qBufGeometry)
    (hnull : validate none ≠ 0)
    (hret : (updateBufferGeometry validate buffer g).ret ≠ 0) :
    (updateBufferGeometry validate buffer g).buffer = buffer ∧
    (updateBufferGeometry validate buffer g).ret = -EINVAL ∧
    (buffer = none ∨
      ∃ b, buffer = some b ∧ g.width ≠ 0 ∧ g.height ≠ 0 ∧ g.format ≠ 0 ∧
        ¬ (b.width = g.width ∧ b.height = g.height ∧ b.format = g.format) ∧
        validate b.handle ≠ 0) := by
  cases buffer with
  | none => exact ⟨rfl, rfl, Or.inl rfl⟩
  | some b =>
    by_cases hz : g.width = 0 ∨ g.height = 0 ∨ g.format = 0
    · simp [updateBufferGeometry, hz] at hret
    · by_cases hm : b.width = g.width ∧ b.height = g.height ∧ b.format = g.format
      · rw [updateBufferGeometry_already validate b g hz hm] at hret
        exact absurd rfl hret
      · have hz2 : g.width ≠ 0 ∧ g.height ≠ 0 ∧ g.format ≠ 0 :=
          ⟨fun h => hz (Or.inl h), fun h => hz (Or.inr (Or.inl h)),
            fun h => hz (Or.inr (Or.inr h))⟩
        by_cases hv : validate b.handle = 0
        · cases hb : b.handle with
          | none =>
            rw [hb] at hv
            exact absurd hv hnull
          | some hnd =>
            rw [hb] at hv
            rw [updateBufferGeometry_written validate b hnd g hz hm hb hv] at hret
            exact absurd rfl hret
        · rw [updateBufferGeometry_invalid validate b g hz hm hv]
          exact ⟨rfl, rfl, Or.inr ⟨b, rfl, hz2.1, hz2.2.1, hz2.2.2, hm, hv⟩⟩

/-- Instance of C15: the handle of the buffer has a negative file descriptor
and fails validation; the call returns -22 and the buffer is unchanged. -/
theorem updateBufferGeometry_failure_atomic_witness :
    (updateBufferGeometry (demoEnv true 0 0).validate
      (some { demoBuffer with handle := some { demoHandle with fd := -1 } }) ⟨64, 64, 2⟩).buffer
      = some { demoBuffer with handle := some { demoHandle with fd := -1 } } ∧
    (updateBufferGeometry (demoEnv true 0 0).validate
      (some { demoBuffer with handle := some { demoHandle with fd := -1 } }) ⟨64, 64, 2⟩).ret
      = -22 :=
  have hrun := updateBufferGeometry_failure_atomic (demoEnv true 0 0).validate
    (some { demoBuffer with handle := some { demoHandle with fd := -1 } }) ⟨64, 64, 2⟩
    (by decide) (by decide)
  ⟨hrun.1, hrun.2.1⟩

/-! ## Properties of `getCompositionType` and of its cache -/

/-- Comparing the first three characters with `strncmp` gives zero exactly
when the string begins with the three characters. -/
theorem strncmp_three (p : List Char) (x y z : Char) :
    strncmp p [x, y, z] 3 = 0 ↔ p.take 3 = [x, y, z] := by
  rcases p with _ | ⟨a, _ | ⟨b, _ | ⟨c, rest⟩⟩⟩
  · simp [strncmp]
  · by_cases h1 : a = x
    · simp [strncmp, h1]
    · by_cases h2 : a.toNat < x.toNat <;> simp [strncmp, h1, h2]
  · by_cases h1 : a = x
    · by_cases h3 : b = y
      · simp [strncmp, h1, h3]
      · by_cases h4 : b.toNat < y.toNat <;> simp [strncmp, h1, h3, h4]
    · by_cases h2 : a.toNat < x.toNat <;> simp [strncmp, h1, h2]
  · by_cases h1 : a = x
    · by_cases h3 : b = y
      · by_cases h5 : c = z
        · simp [strncmp, h1, h3, h5]
        · by_cases h6 : c.toNat < z.toNat <;> simp [strncmp, h1, h3, h5, h6]
      · by_cases h4 : b.toNat < y.toNat <;> simp [strncmp, h1, h3, h4]
    · by_cases h2 : a.toNat < x.toNat <;> simp [strncmp, h1, h2]

/-- The value of `getCompositionType` when `debug.sf.hw` is set to a non-empty
string that `atoi` does not read as 0: it is decided by the first three
characters of `debug.composition.type` (of the empty string when that is not
set). -/
theorem getCompositionType_enabled (cfg : Config) (props : Properties) (v : List Char)
    (hhw : props.debug_sf_hw = some v) (hne : v ≠ []) (hatoi : cfg.atoi v ≠ 0) :
    getCompositionType cfg props =
      if ((props.debug_composition_type.getD []).take 3 = ['m', 'd', 'p']) then
        cfg.COMPOSITION_TYPE_MDP
      else if ((props.debug_composition_type.getD []).take 3 = ['c', '2', 'd']) then
        cfg.COMPOSITION_TYPE_C2D
      else if ((props.debug_composition_type.getD []).take 3 = ['d', 'y', 'n']) then
        cfg.COMPOSITION_TYPE_DYN
      else cfg.COMPOSITION_TYPE_GPU := by
  obtain ⟨c, cs, rfl⟩ : ∃ c cs, v = c :: cs := by
    cases v with
    | nil => exact absurd rfl hne
    | cons c cs => exact ⟨c, cs, rfl⟩
  have hbuf : (property_get props.debug_composition_type none).2 =
      props.debug_composition_type.getD [] := by
    rcases hct : props.debug_composition_type with _ | ⟨_ | ⟨d, ds⟩⟩ <;> rfl
  have hlen : (property_get (some (c :: cs)) none).1 > 0 := by
    simp only [property_get, List.length_cons]
    omega
  have hval : (property_get (some (c :: cs)) none).2 = c :: cs := rfl
  unfold getCompositionType
  simp only [hhw, hlen, if_true, hval, hatoi, if_false, hbuf, strncmp_three]

/-- The value of `getCompositionType` is one of the five constants. -/
theorem getCompositionType_range (cfg : Config) (props : Properties) :
    getCompositionType cfg props = cfg.COMPOSITION_TYPE_GPU ∨
    getCompositionType cfg props = cfg.COMPOSITION_TYPE_MDP ∨
    getCompositionType cfg props = cfg.COMPOSITION_TYPE_C2D ∨
    getCompositionType cfg props = cfg.COMPOSITION_TYPE_CPU ∨
    getCompositionType cfg props = cfg.COMPOSITION_TYPE_DYN := by
  unfold getCompositionType
  simp only
  split_ifs <;> simp

/-- C16: `getCompositionType` returns `COMPOSITION_TYPE_CPU` when
`debug.sf.hw` is not set, is empty, or is read as 0 by `atoi`. Otherwise it
returns `COMPOSITION_TYPE_MDP`, `COMPOSITION_TYPE_C2D` or
`COMPOSITION_TYPE_DYN` when `debug.composition.type` begins with the three
characters `mdp`, `c2d` or `dyn`, and `COMPOSITION_TYPE_GPU` when
`debug.composition.type` is not set or has any other value. -/
theorem getCompositionType_spec (cfg : Config) (props : Properties) :
    ((props.debug_sf_hw = none ∨ props.debug_sf_hw = some [] ∨
        ∃ v, props.debug_sf_hw = some v ∧ cfg.atoi v = 0) →
      getCompositionType cfg props = cfg.COMPOSITION_TYPE_CPU) ∧
    (∀ v, props.debug_sf_hw = some v → v ≠ [] → cfg.atoi v ≠ 0 →
      (∀ t, props.debug_composition_type = some t → t.take 3 = ['m', 'd', 'p'] →
        getCompositionType cfg props = cfg.COMPOSITION_TYPE_MDP) ∧
      (∀ t, props.debug_composition_type = some t → t.take 3 = ['c', '2', 'd'] →
        getCompositionType cfg props = cfg.COMPOSITION_TYPE_C2D) ∧
      (∀ t, props.debug_composition_type = some t → t.take 3 = ['d', 'y', 'n'] →
        getCompositionType cfg props = cfg.COMPOSITION_TYPE_DYN) ∧
      (props.debug_composition_type = none →
        getCompositionType cfg props = cfg.COMPOSITION_TYPE_GPU) ∧
      (∀ t, props.debug_composition_type = some t → t.take 3 ≠ ['m', 'd', 'p'] →
        t.take 3 ≠ ['c', '2', 'd'] → t.take 3 ≠ ['d', 'y', 'n'] →
        getCompositionType cfg props = cfg.COMPOSITION_TYPE_GPU)) := by
  constructor
  · rintro (h | h | ⟨v, h, hz⟩)
    · simp [getCompositionType, h, property_get]
    · simp [getCompositionType, h, property_get]
    · cases v with
      | nil => simp [getCompositionType, h, property_get]
      | cons c cs =>
        have hlen : (property_get (some (c :: cs)) none).1 > 0 := by
          simp only [property_get, List.length_cons]
          omega
        have hval : (property_get (some (c :: cs)) none).2 = c :: cs := rfl
        unfold getCompositionType
        simp only [h, hlen, if_true, hval, hz]
  · intro v hhw hne hatoi
    rw [getCompositionType_enabled cfg props v hhw hne hatoi]
    refine ⟨?_, ?_, ?_, ?_, ?_⟩
    · intro t ht h3
      simp [ht, h3]
    · intro t ht h3
      simp [ht, h3]
    · intro t ht h3
      simp [ht, h3]
    · intro ht
      simp [ht]
    · intro t ht h1 h2 h3
      simp [ht, h1, h2, h3]

/-- Instance of C16: `debug.sf.hw` is `1` and `debug.composition.type` is
`mdp4`; the result is `COMPOSITION_TYPE_MDP`, which is 1 in `demoConfig`. -/
theorem getCompositionType_spec_witness :
    getCompositionType demoConfig ⟨some ['1'], some ['m', 'd', 'p', '4']⟩ = 1 :=
  ((getCompositionType_spec demoConfig ⟨some ['1'], some ['m', 'd', 'p', '4']⟩).2
    ['1'] rfl (by decide) (by decide)).1 ['m', 'd', 'p', '4'] rfl (by decide)

/-- Once `sCompositionType` holds a value other than -1, no call of
`qcomuiClearRegion` changes it. -/
theorem sCompositionTypeAfter_cached (cfg : Config) (s : Int) (hs : s ≠ -1)
    (calls : List (Properties × Int)) :
    sCompositionTypeAfter cfg s calls = s := by
  induction calls with
  | nil => rfl
  | cons c rest ih =>
    obtain ⟨props, clear⟩ := c
    have hs2 : ¬ (-1 = s) := fun h => hs h.symm
    have hstep : (qcomuiClearRegion cfg props clear s).2 = s := by
      unfold qcomuiClearRegion
      simp only [hs2, if_false]
      split_ifs <;> rfl
    simp only [sCompositionTypeAfter, hstep]
    exact ih

/-- C17 as stated fails for `getCompositionType`, the function that resolves
the composition type: it reads the settings on every call. With `debug.sf.hw`
set to `1`, it returns `COMPOSITION_TYPE_MDP` while `debug.composition.type`
is `mdp` and `COMPOSITION_TYPE_C2D` once that setting has been changed to
`c2d`. -/
theorem getCompositionType_not_cached_counterexample :
    getCompositionType demoConfig ⟨some ['1'], some ['m', 'd', 'p']⟩ =
      demoConfig.COMPOSITION_TYPE_MDP ∧
    getCompositionType demoConfig ⟨some ['1'], some ['c', '2', 'd']⟩ =
      demoConfig.COMPOSITION_TYPE_C2D ∧
    getCompositionType demoConfig ⟨some ['1'], some ['c', '2', 'd']⟩ ≠
      getCompositionType demoConfig ⟨some ['1'], some ['m', 'd', 'p']⟩ := by
  decide

/-- C17 (amended): the composition type is cached inside `qcomuiClearRegion`.
When none of the five composition type constants is -1, the first call of
`qcomuiClearRegion` (made while `sCompositionType` is -1) stores the value of
`getCompositionType` under the settings of that call, and after any further
calls, under any settings, `sCompositionType` still holds that value; each of
those calls decides on the stored value and not on its own settings. -/
theorem qcomuiClearRegion_caches (cfg : Config)
    (hgpu : cfg.COMPOSITION_TYPE_GPU ≠ -1) (hmdp : cfg.COMPOSITION_TYPE_MDP ≠ -1)
    (hc2d : cfg.COMPOSITION_TYPE_C2D ≠ -1) (hcpu : cfg.COMPOSITION_TYPE_CPU ≠ -1)
    (hdyn : cfg.COMPOSITION_TYPE_DYN ≠ -1)
    (first : Properties) (clear : Int) (later : List (Properties × Int)) :
    (qcomuiClearRegion cfg first clear (-1)).2 = getCompositionType cfg first ∧
    sCompositionTypeAfter cfg (-1) ((first, clear) :: later) = getCompositionType cfg first ∧
    (∀ (props : Properties) (c : Int),
      qcomuiClearRegion cfg props c (getCompositionType cfg first) =
        qcomuiClearRegion cfg first c (getCompositionType cfg first)) := by
  have hne : getCompositionType cfg first ≠ -1 := by
    rcases getCompositionType_range cfg first with h | h | h | h | h <;> rw [h] <;> assumption
  have hfirst : (qcomuiClearRegion cfg first clear (-1)).2 = getCompositionType cfg first := by
    unfold qcomuiClearRegion
    simp only [if_true]
    split_ifs <;> rfl
  refine ⟨hfirst, ?_, ?_⟩
  · simp only [sCompositionTypeAfter, hfirst]
    exact sCompositionTypeAfter_cached cfg _ hne later
  · intro props c
    have hne2 : ¬ (-1 = getCompositionType cfg first) := fun h => hne h.symm
    unfold qcomuiClearRegion
    simp only [hne2, if_false]

/-- Instance of the amended C17: the first call runs while
`debug.composition.type` is `mdp`, the second after it was changed to `c2d`;
`sCompositionType` is `COMPOSITION_TYPE_MDP` after both. -/
theorem qcomuiClearRegion_caches_witness :
    sCompositionTypeAfter demoConfig (-1)
      [(⟨some ['1'], some ['m', 'd', 'p']⟩, 0), (⟨some ['1'], some ['c', '2', 'd']⟩, 0)] = 1 :=
  (qcomuiClearRegion_caches demoConfig (by decide) (by decide) (by decide) (by decide)
    (by decide) ⟨some ['1'], some ['m', 'd', 'p']⟩ 0
    [(⟨some ['1'], some ['c', '2', 'd']⟩, 0)]).2.1

/-! ## Properties of `handleEventHDMI` -/

/-- C18: `handleEventHDMI e s` is `EXT_DISPLAY_HDMI` for the event
`EXT_DISPLAY_HDMI`, `EXT_DISPLAY_OFF` for the event `EXT_DISPLAY_OFF`; for the
event `EXT_DISPLAY_WIFI` it is `EXT_DISPLAY_WIFI` when `s` is not
`EXT_DISPLAY_HDMI` and `s` when it is; for any other event value it is `s`.
So the event WIFI in state OFF gives WIFI. -/
theorem handleEventHDMI_spec :
    (∀ e s : external_display,
      handleEventHDMI e s =
        if e = external_display.EXT_DISPLAY_HDMI then external_display.EXT_DISPLAY_HDMI
        else if e = external_display.EXT_DISPLAY_OFF then external_display.EXT_DISPLAY_OFF
        else if e = external_display.EXT_DISPLAY_WIFI then
          (if s ≠ external_display.EXT_DISPLAY_HDMI then external_display.EXT_DISPLAY_WIFI
            else s)
        else s) ∧
    handleEventHDMI external_display.EXT_DISPLAY_WIFI external_display.EXT_DISPLAY_OFF =
      external_display.EXT_DISPLAY_WIFI := by
  constructor
  · intro e s
    cases e <;> simp [handleEventHDMI]
  · decide

/-- After the event HDMI, events other than OFF keep the state HDMI. -/
theorem handleEvents_keeps_hdmi (post : List external_display)
    (hoff : external_display.EXT_DISPLAY_OFF ∉ post) :
    handleEvents external_display.EXT_DISPLAY_HDMI post = external_display.EXT_DISPLAY_HDMI := by
  induction post with
  | nil => rfl
  | cons e rest ih =>
    have he : e ≠ external_display.EXT_DISPLAY_OFF := fun h => hoff (by simp [h])
    have hrest : external_display.EXT_DISPLAY_OFF ∉ rest := fun h => hoff (by simp [h])
    have hstep : handleEventHDMI e external_display.EXT_DISPLAY_HDMI =
        external_display.EXT_DISPLAY_HDMI := by
      cases e <;> simp [handleEventHDMI] at he ⊢
    simp only [handleEvents, List.foldl_cons, hstep]
    exact ih hrest

/-- C19: from any state and over any finite sequence of events, if the
sequence holds an HDMI event with no OFF event after it, the state after the
whole sequence is `EXT_DISPLAY_HDMI`. In state HDMI every event other than OFF
(WIFI and unknown ones included) leaves the state HDMI. The run
OFF, HDMI, HDMI, OFF under the events HDMI, WIFI, OFF holds. -/
theorem handleEvents_hdmi_priority :
    (∀ (s : external_display) (pre post : List external_display),
      external_display.EXT_DISPLAY_OFF ∉ post →
      handleEvents s (pre ++ external_display.EXT_DISPLAY_HDMI :: post) =
        external_display.EXT_DISPLAY_HDMI) ∧
    (∀ e : external_display, e ≠ external_display.EXT_DISPLAY_OFF →
      handleEventHDMI e external_display.EXT_DISPLAY_HDMI = external_display.EXT_DISPLAY_HDMI) ∧
    (handleEvents external_display.EXT_DISPLAY_OFF [external_display.EXT_DISPLAY_HDMI] =
        external_display.EXT_DISPLAY_HDMI ∧
      handleEvents external_display.EXT_DISPLAY_OFF
          [external_display.EXT_DISPLAY_HDMI, external_display.EXT_DISPLAY_WIFI] =
        external_display.EXT_DISPLAY_HDMI ∧
      handleEvents external_display.EXT_DISPLAY_OFF
          [external_display.EXT_DISPLAY_HDMI, external_display.EXT_DISPLAY_WIFI,
            external_display.EXT_DISPLAY_OFF] =
        external_display.EXT_DISPLAY_OFF) := by
  refine ⟨?_, ?_, by decide, by decide, by decide⟩
  · intro s pre post hoff
    have hsplit : handleEvents s (pre ++ external_display.EXT_DISPLAY_HDMI :: post) =
        handleEvents external_display.EXT_DISPLAY_HDMI post := by
      simp only [handleEvents, List.foldl_append, List.foldl_cons]
      rfl
    rw [hsplit]
    exact handleEvents_keeps_hdmi post hoff
  · intro e he
    cases e <;> simp [handleEventHDMI] at he ⊢

/-- Instance of C19: from state WIFI, the events OFF, HDMI, WIFI, an unknown
event and WIFI again end in state HDMI. -/
theorem handleEvents_hdmi_priority_witness :
    handleEvents external_display.EXT_DISPLAY_WIFI
      ([external_display.EXT_DISPLAY_OFF] ++ external_display.EXT_DISPLAY_HDMI ::
        [external_display.EXT_DISPLAY_WIFI, external_display.other 7,
          external_display.EXT_DISPLAY_WIFI]) =
      external_display.EXT_DISPLAY_HDMI :=
  handleEvents_hdmi_priority.1 external_display.EXT_DISPLAY_WIFI
    [external_display.EXT_DISPLAY_OFF]
    [external_display.EXT_DISPLAY_WIFI, external_display.other 7,
      external_display.EXT_DISPLAY_WIFI] (by decide)

/-! ## The return value of `updateLayerQcomFlags` -/

/-- C20 fails on the code: for an attribute other than `LAYER_UPDATE_STATUS`
(here 1, with `LAYER_UPDATE_STATUS` 0 and `LAYER_UPDATING` 1)
`updateLayerQcomFlags` returns 0, not `-EINVAL`, and leaves the flags as they
are; and it returns 0 for every attribute, enable and flags. -/
theorem updateLayerQcomFlags_invalid_attribute_returns_zero :
    updateLayerQcomFlags ⟨0, 1⟩ 1 true 5 = (0, 5) ∧
    (updateLayerQcomFlags ⟨0, 1⟩ 1 true 5).1 ≠ -EINVAL ∧
    (∀ (c : LayerConsts) (attrib : Int) (enable : Bool) (currentFlags : Int),
      (updateLayerQcomFlags c attrib enable currentFlags).1 = 0) := by
  refine ⟨by decide, by decide, ?_⟩
  intro c attrib enable currentFlags
  unfold updateLayerQcomFlags
  simp only
  split_ifs <;> rfl

/-! ## Properties of `isGPUSupportedFormat` -/

/-- C21: built without `BYPASS_EGLIMAGE`, `isGPUSupportedFormat format` is
true exactly when `format` is `HAL_PIXEL_FORMAT_YV12` or has no bit of
`INTERLACE_MASK` and no bit of `S3D_FORMAT_MASK` set. The YV12 test comes
first: YV12 is supported whatever bits of the masks its value has. -/
theorem isGPUSupportedFormat_spec (c : FormatConsts) (hb : c.BYPASS_EGLIMAGE = false)
    (format : Int) :
    (isGPUSupportedFormat c format = true ↔
      (format = c.HAL_PIXEL_FORMAT_YV12 ∨
        (Int.land format c.INTERLACE_MASK = 0 ∧ Int.land format c.S3D_FORMAT_MASK = 0))) ∧
    isGPUSupportedFormat c c.HAL_PIXEL_FORMAT_YV12 = true := by
  constructor
  · unfold isGPUSupportedFormat
    simp only [hb, Bool.false_eq_true, false_and, if_false]
    by_cases h1 : format = c.HAL_PIXEL_FORMAT_YV12
    · simp [h1]
    · by_cases h2 : Int.land format c.INTERLACE_MASK = 0
      · by_cases h3 : Int.land format c.S3D_FORMAT_MASK = 0
        · simp [h1, h2, h3]
        · simp [h1, h2, h3]
      · simp [h1, h2]
  · unfold isGPUSupportedFormat
    simp only [hb, Bool.false_eq_true, false_and, if_false, if_true]

/-- Instance of C21: with YV12 `0x32315659` and the S3D mask `0xFF000`, the
value of YV12 has the bits `0x15000` of the mask set, and YV12 is supported;
the format `0x10011`, which has a bit of the mask set, is not. -/
theorem isGPUSupportedFormat_spec_witness :
    Int.land 0x32315659 0xFF000 = 0x15000 ∧
    isGPUSupportedFormat demoFormats 0x32315659 = true ∧
    isGPUSupportedFormat demoFormats 0x10011 = false :=
  ⟨by decide, (isGPUSupportedFormat_spec demoFormats rfl 0x32315659).2, by decide⟩

end QcomUI
